import Mathlib

/-!
Verification of the pension savings calculator (src/app.py).

The payout and taxation engine of the calculator is embedded shallowly:
Python ints and floats are both modelled as exact rationals, stateful
loops become structural recursion with explicit state passing, and the
per-year record dictionary becomes a structure. Field and function names
follow the source.
-/

/-- Income bracket tag, mirroring the two selectable options in the source. -/
inductive IncomeLevel where
  | low
  | high
deriving DecidableEq, Repr

/-- Contribution timing tag, mirroring the two options in the source
(start of year and end of year). -/
inductive ContributionTiming where
  | startOfYear
  | endOfYear
deriving DecidableEq, Repr

/-- The UserInput dataclass of the source. Monetary int fields and float
rate fields are both embedded as rationals. -/
structure UserInput where
  start_age : ℤ
  retirement_age : ℤ
  end_age : ℤ
  pre_retirement_return : ℚ
  post_retirement_return : ℚ
  inflation_rate : ℚ
  annual_contribution : ℚ
  non_deductible_contribution : ℚ
  other_non_deductible_total : ℚ
  other_private_pension_income : ℚ
  public_pension_income : ℚ
  other_comprehensive_income : ℚ
  income_level : IncomeLevel
  contribution_timing : ContributionTiming
  current_age_actual : ℤ
  include_pension_deduction : Bool
deriving DecidableEq, Repr

/-- PENSION_TAX_THRESHOLD constant of the source. -/
def PENSION_TAX_THRESHOLD : ℚ := 15000000

/-- SEPARATE_TAX_RATE constant of the source (16.5 percent). -/
def SEPARATE_TAX_RATE : ℚ := 165/1000

/-- OTHER_INCOME_TAX_RATE constant of the source (16.5 percent). -/
def OTHER_INCOME_TAX_RATE : ℚ := 165/1000

/-- LOCAL_TAX_RATE constant of the source (10 percent of the base tax). -/
def LOCAL_TAX_RATE : ℚ := 1/10

/-- PENSION_TAX_RATES under_70 entry of the source. -/
def PENSION_TAX_RATE_UNDER_70 : ℚ := 55/1000

/-- PENSION_TAX_RATES under_80 entry of the source. -/
def PENSION_TAX_RATE_UNDER_80 : ℚ := 44/1000

/-- PENSION_TAX_RATES over_80 entry of the source. -/
def PENSION_TAX_RATE_OVER_80 : ℚ := 33/1000

/-- COMPREHENSIVE_TAX_BRACKETS constant of the source: inclusive upper
threshold (none stands for the float inf of the last row), rate, and
cumulative deduction. -/
def COMPREHENSIVE_TAX_BRACKETS : List (Option ℚ × ℚ × ℚ) :=
  [(some 14000000, 6/100, 0),
   (some 50000000, 15/100, 1260000),
   (some 88000000, 24/100, 5760000),
   (some 150000000, 35/100, 15440000),
   (some 300000000, 38/100, 19940000),
   (some 500000000, 40/100, 25940000),
   (some 1000000000, 42/100, 35940000),
   (none, 45/100, 65940000)]

/-- The bracket loop of get_comprehensive_tax: the first bracket whose
threshold is at least the income determines the tax, and the inf row
always matches. -/
def bracketScan (x : ℚ) : List (Option ℚ × ℚ × ℚ) → ℚ
  | [] => 0
  | (t, rate, ded) :: rest =>
    match t with
    | none => x * rate - ded
    | some thr => if x ≤ thr then x * rate - ded else bracketScan x rest

/-- The line of the first bracket of a bracket list, evaluated at a
point; zero for the empty list. Used to state continuity of the bracket
table at its thresholds. -/
def lineAt (l : List (Option ℚ × ℚ × ℚ)) (x : ℚ) : ℚ :=
  match l with
  | [] => 0
  | (_, rate, ded) :: _ => x * rate - ded

/-- Well formedness of a bracket list above a lower bound: slopes lie in
the unit interval, thresholds are sorted, adjacent lines agree at each
threshold, and the list ends with exactly one unbounded row. -/
def BracketsWF : ℚ → List (Option ℚ × ℚ × ℚ) → Prop
  | _, [] => False
  | _, [(none, rate, _)] => 0 ≤ rate ∧ rate ≤ 1
  | _, (none, _, _) :: _ :: _ => False
  | lo, (some t, rate, ded) :: rest =>
      0 ≤ rate ∧ rate ≤ 1 ∧ lo ≤ t ∧ lineAt rest t = t * rate - ded ∧ BracketsWF t rest

/-- get_comprehensive_tax of the source: zero on a non-positive base,
otherwise the bracket formula, multiplied by one plus the local tax rate
unless the caller opts out. -/
def get_comprehensive_tax (taxable_income : ℚ) (include_local_tax : Bool) : ℚ :=
  if taxable_income ≤ 0 then 0
  else
    let tax := bracketScan taxable_income COMPREHENSIVE_TAX_BRACKETS
    if include_local_tax then tax * (1 + LOCAL_TAX_RATE) else tax

/-- get_pension_income_deduction_amount of the source: tiered deduction
on gross pension income, zero when the include flag is false. -/
def get_pension_income_deduction_amount (pension_income : ℚ) (include_deduction_flag : Bool) : ℚ :=
  if include_deduction_flag = false then 0
  else if pension_income ≤ 3500000 then pension_income
  else if pension_income ≤ 7000000 then 3500000 + (pension_income - 3500000) * (4/10)
  else if pension_income ≤ 14000000 then 4900000 + (pension_income - 7000000) * (2/10)
  else min (6300000 + (pension_income - 14000000) * (1/10)) 9000000

/-- calculate_lump_sum_tax of the source: other income tax on a positive
taxable lump sum, zero otherwise. -/
def calculate_lump_sum_tax (taxable_lump_sum : ℚ) : ℚ :=
  if taxable_lump_sum ≤ 0 then 0
  else taxable_lump_sum * OTHER_INCOME_TAX_RATE

/-- The lump sum wiring of display_present_value_analysis, source lines
300 to 302: taxable base, its tax, and the after tax amount. -/
def lump_sum_summary (total_at_retirement total_non_deductible_paid : ℚ) : ℚ × ℚ :=
  let taxable_lump_sum := total_at_retirement - total_non_deductible_paid
  let lump_sum_tax := calculate_lump_sum_tax taxable_lump_sum
  (lump_sum_tax, total_at_retirement - lump_sum_tax)

/-- Regime label returned by calculate_annual_pension_tax. -/
inductive TaxChoice where
  | lowRate
  | comprehensive
  | separate
  | notApplicable
deriving DecidableEq, Repr

/-- The dictionary returned by calculate_annual_pension_tax. -/
structure TaxInfo where
  chosen : ℚ
  comprehensive : ℚ
  separate : ℚ
  choice : TaxChoice
deriving DecidableEq, Repr

/-- The comprehensive candidate of the comparison branch of
calculate_annual_pension_tax, source lines 92 to 104: the marginal
comprehensive tax attributable to the withdrawal, floored at zero. -/
def comprehensiveCandidate (private_pension_gross : ℚ) (u : UserInput) : ℚ :=
  let total_pension_income_for_comp :=
    private_pension_gross + u.other_private_pension_income + u.public_pension_income
  let taxable_pension_income_for_comp :=
    total_pension_income_for_comp -
      get_pension_income_deduction_amount total_pension_income_for_comp u.include_pension_deduction
  let total_other_pension_income_for_deduction :=
    u.other_private_pension_income + u.public_pension_income
  let taxable_other_pension_income_only :=
    total_other_pension_income_for_deduction -
      get_pension_income_deduction_amount total_other_pension_income_for_deduction
        u.include_pension_deduction
  let taxable_income_without_current_private :=
    taxable_other_pension_income_only + u.other_comprehensive_income
  let tax_without_private_pension := get_comprehensive_tax taxable_income_without_current_private true
  let taxable_all_income := taxable_pension_income_for_comp + u.other_comprehensive_income
  let tax_with_private_pension_comprehensive := get_comprehensive_tax taxable_all_income true
  max 0 (tax_with_private_pension_comprehensive - tax_without_private_pension)

/-- The separate candidate of calculate_annual_pension_tax, source line
105: the recognized withdrawal times the separate tax rate. -/
def separateCandidate (private_pension_gross : ℚ) : ℚ :=
  private_pension_gross * SEPARATE_TAX_RATE

/-- calculate_annual_pension_tax of the source, lines 78 to 110: low rate
regime below the threshold, otherwise a comparison of the comprehensive
and separate candidates with a strict less-than favoring comprehensive. -/
def calculate_annual_pension_tax (private_pension_gross : ℚ) (u : UserInput)
    (current_age : ℤ) : TaxInfo :=
  if private_pension_gross ≤ PENSION_TAX_THRESHOLD then
    let rate :=
      if current_age < 70 then PENSION_TAX_RATE_UNDER_70
      else if current_age < 80 then PENSION_TAX_RATE_UNDER_80
      else PENSION_TAX_RATE_OVER_80
    let tax := private_pension_gross * rate
    ⟨tax, tax, tax, TaxChoice.lowRate⟩
  else
    let tax_on_private_pension_comp := comprehensiveCandidate private_pension_gross u
    let separate_tax := separateCandidate private_pension_gross
    if tax_on_private_pension_comp < separate_tax then
      ⟨tax_on_private_pension_comp, tax_on_private_pension_comp, separate_tax,
        TaxChoice.comprehensive⟩
    else
      ⟨separate_tax, tax_on_private_pension_comp, separate_tax, TaxChoice.separate⟩

/-- The two wallets threaded through run_payout_simulation. -/
structure WalletState where
  non_taxable : ℚ
  taxable : ℚ
deriving DecidableEq, Repr

/-- The total balance of the two wallets at a point in time. -/
def currentBalance (w : WalletState) : ℚ := w.non_taxable + w.taxable

/-- Initial wallet split of run_payout_simulation, source lines 117 to
118: the non taxable wallet holds exactly the non deductible principal,
the taxable wallet holds the rest. -/
def initialWallets (total_at_retirement total_non_deductible_paid : ℚ) : WalletState :=
  ⟨total_non_deductible_paid, total_at_retirement - total_non_deductible_paid⟩

/-- The annuity target of run_payout_simulation, source lines 131 to 140:
branches on remaining years and the post retirement rate; the general
branch uses the annuity due factor. -/
def annualPayoutTarget (post_ret_rate balance : ℚ) (remaining_years : ℤ) : ℚ :=
  if remaining_years ≤ 0 then 0
  else if post_ret_rate = 0 then balance / (remaining_years : ℚ)
  else if post_ret_rate ≤ -1 then balance
  else
    let annuity_factor_ordinary := (1 - (1 + post_ret_rate) ^ (-remaining_years)) / post_ret_rate
    let annuity_factor := annuity_factor_ordinary * (1 + post_ret_rate)
    if 0 < annuity_factor then balance / annuity_factor else 0

/-- The withdrawal limit block of run_payout_simulation, source lines 147
to 156: in the first ten payout years only a capped share of the taxable
withdrawal is recognized; the pair holds the recognized amount and the
excess. -/
def recognizedAndExcess (current_balance from_taxable : ℚ) (payout_year_count : ℤ) : ℚ × ℚ :=
  if payout_year_count ≤ 10 then
    let pension_payout_limit := current_balance * (12/10) / ((11 - payout_year_count : ℤ) : ℚ)
    if pension_payout_limit < from_taxable then
      (pension_payout_limit, from_taxable - pension_payout_limit)
    else (from_taxable, 0)
  else (from_taxable, 0)

/-- One row of the annual breakdown produced by run_payout_simulation. -/
structure YearRecord where
  age : ℤ
  annual_payout : ℚ
  annual_take_home : ℚ
  total_tax_paid : ℚ
  pension_tax : ℚ
  tax_on_limit_excess : ℚ
  year_end_total_balance : ℚ
  pension_payout_under_limit : ℚ
  comprehensive_tax : ℚ
  separate_tax : ℚ
  choice : TaxChoice
deriving DecidableEq, Repr

/-- One iteration of the payout loop of run_payout_simulation, source
lines 123 to 184: computes the annuity withdrawal, splits it across the
wallets, applies the withdrawal limit and the taxation choice, and
advances both wallets under compounding. -/
def payoutStep (u : UserInput) (payout_years year_offset : ℤ) (w : WalletState) :
    YearRecord × WalletState :=
  let post_ret_rate := u.post_retirement_return / 100
  let current_balance := currentBalance w
  let current_age := u.retirement_age + year_offset
  let payout_year_count := year_offset + 1
  let remaining_years := payout_years - year_offset
  let annual_payout := min (annualPayoutTarget post_ret_rate current_balance remaining_years)
    current_balance
  let from_non_taxable := min annual_payout w.non_taxable
  let from_taxable := annual_payout - from_non_taxable
  let limit_result := recognizedAndExcess current_balance from_taxable payout_year_count
  let pension_payout_under_limit := limit_result.1
  let tax_on_limit_excess := limit_result.2 * OTHER_INCOME_TAX_RATE
  let pension_tax_info :=
    if 0 < pension_payout_under_limit then
      calculate_annual_pension_tax pension_payout_under_limit u current_age
    else ⟨0, 0, 0, TaxChoice.notApplicable⟩
  let pension_tax := pension_tax_info.chosen
  let total_tax_paid := pension_tax + tax_on_limit_excess
  let annual_take_home := annual_payout - total_tax_paid
  let new_non_taxable := (w.non_taxable - from_non_taxable) * (1 + post_ret_rate)
  let new_taxable := (w.taxable - from_taxable) * (1 + post_ret_rate)
  (⟨current_age, annual_payout, annual_take_home, total_tax_paid, pension_tax,
    tax_on_limit_excess, new_non_taxable + new_taxable, pension_payout_under_limit,
    pension_tax_info.comprehensive, pension_tax_info.separate, pension_tax_info.choice⟩,
   ⟨new_non_taxable, new_taxable⟩)

/-- The payout loop of run_payout_simulation: runs up to the fuel many
years, stopping early once the total balance is not positive. Returns
the per year records paired with the wallet state after each year, and
the final wallet state. -/
def payoutLoopAux (u : UserInput) (payout_years : ℤ) :
    ℕ → ℤ → WalletState → List (YearRecord × WalletState) × WalletState
  | 0, _, w => ([], w)
  | fuel + 1, year_offset, w =>
    if currentBalance w ≤ 0 then ([], w)
    else
      let s := payoutStep u payout_years year_offset w
      let rest := payoutLoopAux u payout_years fuel (year_offset + 1) s.2
      (s :: rest.1, rest.2)

/-- The number of payout years of run_payout_simulation, source line 119. -/
def payoutYears (u : UserInput) : ℤ := u.end_age - u.retirement_age

/-- run_payout_simulation instrumented with the wallet state after each
simulated year. -/
def payoutTrace (u : UserInput) (total_at_retirement total_non_deductible_paid : ℚ) :
    List (YearRecord × WalletState) :=
  (payoutLoopAux u (payoutYears u) (payoutYears u).toNat 0
    (initialWallets total_at_retirement total_non_deductible_paid)).1

/-- run_payout_simulation of the source: the ordered list of yearly
records. -/
def run_payout_simulation (u : UserInput) (total_at_retirement total_non_deductible_paid : ℚ) :
    List YearRecord :=
  (payoutTrace u total_at_retirement total_non_deductible_paid).map Prod.fst

/-- The wallet state after the payout loop of run_payout_simulation has
finished. -/
def finalWallets (u : UserInput) (total_at_retirement total_non_deductible_paid : ℚ) :
    WalletState :=
  (payoutLoopAux u (payoutYears u) (payoutYears u).toNat 0
    (initialWallets total_at_retirement total_non_deductible_paid)).2

/-- The accumulation recursion of calculate_total_at_retirement, source
lines 70 to 75. -/
def accumulateBalance (pre_ret_rate contribution : ℚ) (timing : ContributionTiming) : ℕ → ℚ
  | 0 => 0
  | n + 1 =>
    match timing with
    | ContributionTiming.startOfYear =>
      (accumulateBalance pre_ret_rate contribution timing n + contribution) * (1 + pre_ret_rate)
    | ContributionTiming.endOfYear =>
      accumulateBalance pre_ret_rate contribution timing n * (1 + pre_ret_rate) + contribution

/-- The contribution years of the source, line 65. -/
def contributionYears (u : UserInput) : ℤ := u.retirement_age - u.start_age

/-- calculate_total_at_retirement of the source (the terminal balance;
the growth trace used only for charting is dropped). -/
def calculate_total_at_retirement (u : UserInput) : ℚ :=
  accumulateBalance (u.pre_retirement_return / 100) u.annual_contribution
    u.contribution_timing (contributionYears u).toNat

/-- The total non deductible principal computed by the main app logic,
source lines 487 to 488. -/
def totalNonDeductiblePaid (u : UserInput) : ℚ :=
  u.non_deductible_contribution * ((contributionYears u : ℤ) : ℚ) + u.other_non_deductible_total

/-- The validation predicate of the main app logic, source lines 470 to
473: age ordering, minimum retirement age, minimum contribution years
and minimum payout years. -/
def validParams (u : UserInput) : Prop :=
  u.start_age < u.retirement_age ∧ u.retirement_age < u.end_age ∧
  55 ≤ u.retirement_age ∧ 5 ≤ u.retirement_age - u.start_age ∧
  10 ≤ u.end_age - u.retirement_age

instance (u : UserInput) : Decidable (validParams u) := by
  unfold validParams
  infer_instance

/-- Continuity of a rational function at a point, stated in epsilon and
delta form over the rationals. -/
def ContinuousAtQ (f : ℚ → ℚ) (b : ℚ) : Prop :=
  ∀ ε : ℚ, 0 < ε → ∃ δ : ℚ, 0 < δ ∧ ∀ x : ℚ, |x - b| < δ → |f x - f b| < ε

/-- Concrete input exhibiting a negative taxable wallet: zero returns,
thirty contribution years of six million, and a one billion non
deductible top up total. -/
def uNegWallet : UserInput :=
  ⟨30, 60, 90, 0, 0, 35/10, 6000000, 0, 1000000000, 0, 0, 0,
    IncomeLevel.low, ContributionTiming.endOfYear, 30, false⟩

/-- Concrete input for the regime comparison counterexample: five million
of other private pension income with the pension income deduction
included. -/
def uRegime : UserInput :=
  ⟨30, 60, 90, 0, 0, 35/10, 6000000, 0, 0, 5000000, 0, 0,
    IncomeLevel.low, ContributionTiming.endOfYear, 30, true⟩

/-- Concrete input with zero rates used to instantiate simulation level
theorems. -/
def uZeroRate : UserInput :=
  ⟨30, 60, 70, 0, 0, 0, 1000000, 0, 0, 0, 0, 0,
    IncomeLevel.low, ContributionTiming.endOfYear, 30, false⟩

/-! ### Helper lemmas -/

lemma ded_true_eq (x : ℚ) : get_pension_income_deduction_amount x true =
    if x ≤ 3500000 then x
    else if x ≤ 7000000 then 3500000 + (x - 3500000) * (4/10)
    else if x ≤ 14000000 then 4900000 + (x - 7000000) * (2/10)
    else min (6300000 + (x - 14000000) * (1/10)) 9000000 := rfl

lemma ded_mono (x y : ℚ) (h : x ≤ y) :
    get_pension_income_deduction_amount x true ≤ get_pension_income_deduction_amount y true := by
  rw [ded_true_eq, ded_true_eq]
  simp only [min_def]
  split_ifs <;> linarith

lemma ded_sub_le (x y : ℚ) (h : x ≤ y) :
    get_pension_income_deduction_amount y true - get_pension_income_deduction_amount x true ≤
      y - x := by
  rw [ded_true_eq, ded_true_eq]
  simp only [min_def]
  split_ifs <;> linarith

lemma ded_lip (x y : ℚ) :
    |get_pension_income_deduction_amount x true - get_pension_income_deduction_amount y true| ≤
      |x - y| := by
  rcases le_total x y with h | h
  · rw [abs_sub_comm, abs_of_nonneg (sub_nonneg.mpr (ded_mono x y h)),
      abs_sub_comm, abs_of_nonneg (sub_nonneg.mpr h)]
    exact ded_sub_le x y h
  · rw [abs_of_nonneg (sub_nonneg.mpr (ded_mono y x h)), abs_of_nonneg (sub_nonneg.mpr h)]
    exact ded_sub_le y x h

lemma ded_cap (x : ℚ) : get_pension_income_deduction_amount x true ≤ 9000000 := by
  rw [ded_true_eq]
  simp only [min_def]
  split_ifs <;> linarith

lemma ded_contAt (b : ℚ) :
    ContinuousAtQ (fun x => get_pension_income_deduction_amount x true) b := by
  intro ε hε
  exact ⟨ε, hε, fun x hx => lt_of_le_of_lt (ded_lip x b) hx⟩

/-! ### C6 -/

/-- C6: the pension income deduction with the include flag true is
monotonically non decreasing, continuous at the three tier boundaries,
and never exceeds nine million; with the flag false it returns zero
unconditionally. -/
theorem pension_deduction_properties :
    (∀ x y : ℚ, x ≤ y →
      get_pension_income_deduction_amount x true ≤ get_pension_income_deduction_amount y true) ∧
    (∀ x : ℚ, get_pension_income_deduction_amount x true ≤ 9000000) ∧
    (∀ b : ℚ, b ∈ ([3500000, 7000000, 14000000] : List ℚ) →
      ContinuousAtQ (fun x => get_pension_income_deduction_amount x true) b) ∧
    (∀ x : ℚ, get_pension_income_deduction_amount x false = 0) :=
  ⟨ded_mono, ded_cap, fun b _ => ded_contAt b, fun _ => rfl⟩

/-- Witness for C6, applying the theorem at the first tier boundary. -/
theorem pension_deduction_properties_witness :
    (3500000 : ℚ) ≤ 7000000 ∧
    get_pension_income_deduction_amount 3500000 true ≤
      get_pension_income_deduction_amount 7000000 true :=
  ⟨by norm_num, pension_deduction_properties.1 3500000 7000000 (by norm_num)⟩

/-! ### C1 -/

/-- C1: whenever the recognized taxable pension withdrawal plus other
pension income is at most fifteen million, calculate_annual_pension_tax
selects the low rate regime and applies the age banded flat rate to the
withdrawal only. -/
theorem low_rate_regime_under_threshold (gross : ℚ) (u : UserInput) (age : ℤ)
    (h1 : 0 ≤ u.other_private_pension_income) (h2 : 0 ≤ u.public_pension_income)
    (hsum : gross + u.other_private_pension_income + u.public_pension_income ≤ 15000000) :
    (calculate_annual_pension_tax gross u age).choice = TaxChoice.lowRate ∧
    (age < 70 → (calculate_annual_pension_tax gross u age).chosen = gross * (55/1000)) ∧
    (70 ≤ age → age < 80 → (calculate_annual_pension_tax gross u age).chosen = gross * (44/1000)) ∧
    (80 ≤ age → (calculate_annual_pension_tax gross u age).chosen = gross * (33/1000)) := by
  have hg : gross ≤ PENSION_TAX_THRESHOLD := by
    unfold PENSION_TAX_THRESHOLD
    linarith
  refine ⟨?_, fun ha => ?_, fun ha hb => ?_, fun ha => ?_⟩
  · simp [calculate_annual_pension_tax, hg]
  · simp [calculate_annual_pension_tax, hg, ha, PENSION_TAX_RATE_UNDER_70]
  · simp [calculate_annual_pension_tax, hg, hb, not_lt.mpr ha, PENSION_TAX_RATE_UNDER_80]
  · simp [calculate_annual_pension_tax, hg, not_lt.mpr ha,
      not_lt.mpr (by linarith : (70:ℤ) ≤ age), PENSION_TAX_RATE_OVER_80]

/-- Witness for C1 at a concrete withdrawal of ten million, two million
of other pension income and age sixty five. -/
theorem low_rate_regime_under_threshold_witness :
    ((0:ℚ) ≤ uRegime.other_private_pension_income ∧ (0:ℚ) ≤ uRegime.public_pension_income ∧
      (10000000 : ℚ) + uRegime.other_private_pension_income + uRegime.public_pension_income ≤
        15000000) ∧
    (calculate_annual_pension_tax 10000000 uRegime 65).choice = TaxChoice.lowRate ∧
    (calculate_annual_pension_tax 10000000 uRegime 65).chosen = 10000000 * (55/1000) := by
  have h := low_rate_regime_under_threshold 10000000 uRegime 65 (by norm_num [uRegime])
    (by norm_num [uRegime]) (by norm_num [uRegime])
  exact ⟨⟨by norm_num [uRegime], by norm_num [uRegime], by norm_num [uRegime]⟩,
    h.1, h.2.1 (by norm_num)⟩

/-! ### C2 -/

/-- C2 counterexample: with fourteen million recognized withdrawal and
five million of other private pension income the combined pension income
exceeds the threshold, yet the code chooses the low rate tax, which is
not the minimum of the comprehensive and separate candidates. -/
theorem regime_choice_counterexample :
    (15000000 : ℚ) <
      14000000 + uRegime.other_private_pension_income + uRegime.public_pension_income ∧
    (calculate_annual_pension_tax 14000000 uRegime 65).choice = TaxChoice.lowRate ∧
    (calculate_annual_pension_tax 14000000 uRegime 65).chosen = 770000 ∧
    min (comprehensiveCandidate 14000000 uRegime) (separateCandidate 14000000) = 745800 ∧
    (calculate_annual_pension_tax 14000000 uRegime 65).chosen ≠
      min (comprehensiveCandidate 14000000 uRegime) (separateCandidate 14000000) := by
  have h1 : (calculate_annual_pension_tax 14000000 uRegime 65).choice = TaxChoice.lowRate := by
    norm_num [calculate_annual_pension_tax, PENSION_TAX_THRESHOLD, PENSION_TAX_RATE_UNDER_70,
      uRegime]
  have h2 : (calculate_annual_pension_tax 14000000 uRegime 65).chosen = 770000 := by
    norm_num [calculate_annual_pension_tax, PENSION_TAX_THRESHOLD, PENSION_TAX_RATE_UNDER_70,
      uRegime]
  have h3 : min (comprehensiveCandidate 14000000 uRegime) (separateCandidate 14000000)
      = 745800 := by
    norm_num [comprehensiveCandidate, separateCandidate, get_pension_income_deduction_amount,
      get_comprehensive_tax, bracketScan, COMPREHENSIVE_TAX_BRACKETS, LOCAL_TAX_RATE,
      SEPARATE_TAX_RATE, uRegime, min_def]
  refine ⟨by norm_num [uRegime], h1, h2, h3, ?_⟩
  rw [h2, h3]
  norm_num

/-- C2 amended: in the code the low rate condition tests the recognized
withdrawal alone, so only when the withdrawal itself exceeds fifteen
million does the chosen tax equal the minimum of the comprehensive and
separate candidates, with ties going to the separate regime. -/
theorem regime_choice_above_threshold (gross : ℚ) (u : UserInput) (age : ℤ)
    (h : PENSION_TAX_THRESHOLD < gross) :
    (calculate_annual_pension_tax gross u age).chosen =
      min (comprehensiveCandidate gross u) (separateCandidate gross) ∧
    ((calculate_annual_pension_tax gross u age).choice = TaxChoice.comprehensive ↔
      comprehensiveCandidate gross u < separateCandidate gross) ∧
    ((calculate_annual_pension_tax gross u age).choice = TaxChoice.separate ↔
      separateCandidate gross ≤ comprehensiveCandidate gross u) := by
  have hg : ¬ gross ≤ PENSION_TAX_THRESHOLD := not_le.mpr h
  by_cases hc : comprehensiveCandidate gross u < separateCandidate gross
  · refine ⟨?_, ?_, ?_⟩
    · simp [calculate_annual_pension_tax, hg, hc, min_eq_left hc.le]
    · simp [calculate_annual_pension_tax, hg, hc]
    · simp [calculate_annual_pension_tax, hg, hc, not_le.mpr hc]
  · refine ⟨?_, ?_, ?_⟩
    · simp [calculate_annual_pension_tax, hg, hc, min_eq_right (not_lt.mp hc)]
    · simp [calculate_annual_pension_tax, hg, hc]
    · simp [calculate_annual_pension_tax, hg, hc, not_lt.mp hc]

/-- Witness for C2 amended at a twenty million withdrawal. -/
theorem regime_choice_above_threshold_witness :
    PENSION_TAX_THRESHOLD < (20000000 : ℚ) ∧
    (calculate_annual_pension_tax 20000000 uRegime 65).chosen =
      min (comprehensiveCandidate 20000000 uRegime) (separateCandidate 20000000) :=
  ⟨by norm_num [PENSION_TAX_THRESHOLD],
    (regime_choice_above_threshold 20000000 uRegime 65
      (by norm_num [PENSION_TAX_THRESHOLD])).1⟩

/-! ### C4 -/

/-- C4: in the first ten payout years the recognized taxable withdrawal
is the minimum of the taxable sourced withdrawal and the limit of the
current balance times one point two over eleven minus the year index,
the excess above the limit is taxed at the flat sixteen point five
percent rate independently of the regime choice, and after year ten the
full withdrawal is recognized with zero excess. -/
theorem withdrawal_limit_policy (current_balance from_taxable : ℚ) (k : ℤ)
    (u : UserInput) (payout_years year_offset : ℤ) (w : WalletState) :
    (k ≤ 10 → recognizedAndExcess current_balance from_taxable k =
      (min from_taxable (current_balance * (12/10) / ((11 - k : ℤ) : ℚ)),
       from_taxable - min from_taxable (current_balance * (12/10) / ((11 - k : ℤ) : ℚ)))) ∧
    (10 < k → recognizedAndExcess current_balance from_taxable k = (from_taxable, 0)) ∧
    ((payoutStep u payout_years year_offset w).1.tax_on_limit_excess =
      (recognizedAndExcess (currentBalance w)
        ((payoutStep u payout_years year_offset w).1.annual_payout -
          min ((payoutStep u payout_years year_offset w).1.annual_payout) w.non_taxable)
        (year_offset + 1)).2 * (165/1000)) ∧
    ((payoutStep u payout_years year_offset w).1.total_tax_paid =
      (payoutStep u payout_years year_offset w).1.pension_tax +
      (payoutStep u payout_years year_offset w).1.tax_on_limit_excess) := by
  refine ⟨fun hk => ?_, fun hk => ?_, rfl, rfl⟩
  · simp only [recognizedAndExcess, if_pos hk]
    split_ifs with hover
    · rw [min_eq_right (le_of_lt hover)]
    · rw [min_eq_left (not_lt.mp hover)]
      exact Prod.ext rfl (by ring)
  · simp only [recognizedAndExcess, if_neg (not_le.mpr hk)]

/-- Witness for C4 in payout year three and in payout year twelve. -/
theorem withdrawal_limit_policy_witness :
    ((3 : ℤ) ≤ 10 ∧ recognizedAndExcess 100 50 3 =
      (min 50 ((100 : ℚ) * (12/10) / ((11 - 3 : ℤ) : ℚ)),
       50 - min 50 ((100 : ℚ) * (12/10) / ((11 - 3 : ℤ) : ℚ)))) ∧
    ((10 : ℤ) < 12 ∧ recognizedAndExcess 100 50 12 = (50, 0)) :=
  ⟨⟨by norm_num,
    (withdrawal_limit_policy 100 50 3 uRegime 30 2 ⟨0, 100⟩).1 (by norm_num)⟩,
   ⟨by norm_num,
    (withdrawal_limit_policy 100 50 12 uRegime 30 11 ⟨0, 100⟩).2.1 (by norm_num)⟩⟩

/-! ### C8 -/

/-- C8 counterexample: when the non taxable principal exceeds the
terminal balance the code clamps the lump sum tax at zero instead of
returning the negative product the claim prescribes. -/
theorem lump_sum_tax_counterexample :
    (lump_sum_summary 100 200).1 = 0 ∧
    ((100 : ℚ) - 200) * (165/1000) = -33/2 ∧
    (lump_sum_summary 100 200).1 ≠ ((100 : ℚ) - 200) * (165/1000) := by
  have h1 : (lump_sum_summary 100 200).1 = 0 := by
    norm_num [lump_sum_summary, calculate_lump_sum_tax, OTHER_INCOME_TAX_RATE]
  have h2 : ((100 : ℚ) - 200) * (165/1000) = -33/2 := by norm_num
  refine ⟨h1, h2, ?_⟩
  rw [h1, h2]
  norm_num

/-- C8 amended: whenever the terminal balance is at least the non
taxable principal the lump sum tax is the difference times sixteen point
five percent, and the after tax lump sum is always the terminal balance
minus the tax. -/
theorem lump_sum_tax_amended (total_at_retirement total_non_deductible_paid : ℚ)
    (h : total_non_deductible_paid ≤ total_at_retirement) :
    (lump_sum_summary total_at_retirement total_non_deductible_paid).1 =
      (total_at_retirement - total_non_deductible_paid) * (165/1000) ∧
    (lump_sum_summary total_at_retirement total_non_deductible_paid).2 =
      total_at_retirement - (lump_sum_summary total_at_retirement total_non_deductible_paid).1 := by
  refine ⟨?_, rfl⟩
  simp only [lump_sum_summary, calculate_lump_sum_tax, OTHER_INCOME_TAX_RATE]
  split_ifs with h0
  · have he : total_at_retirement - total_non_deductible_paid = 0 := le_antisymm h0 (by linarith)
    rw [he]
    ring
  · rfl

/-- Witness for C8 amended at terminal balance ten and principal four. -/
theorem lump_sum_tax_amended_witness :
    (4 : ℚ) ≤ 10 ∧
    (lump_sum_summary 10 4).1 = ((10 : ℚ) - 4) * (165/1000) :=
  ⟨by norm_num, (lump_sum_tax_amended 10 4 (by norm_num)).1⟩

/-! ### C10 -/

/-- C10: run_payout_simulation initializes the non taxable wallet to the
non deductible principal and the taxable wallet to the terminal balance
minus that principal, so the wallets sum to the terminal balance and the
taxable wallet starts negative when the principal exceeds the balance. -/
theorem initial_wallet_split (total_at_retirement total_non_deductible_paid : ℚ) :
    (initialWallets total_at_retirement total_non_deductible_paid).non_taxable =
      total_non_deductible_paid ∧
    (initialWallets total_at_retirement total_non_deductible_paid).taxable =
      total_at_retirement - total_non_deductible_paid ∧
    (initialWallets total_at_retirement total_non_deductible_paid).non_taxable +
      (initialWallets total_at_retirement total_non_deductible_paid).taxable =
        total_at_retirement ∧
    (total_at_retirement < total_non_deductible_paid →
      (initialWallets total_at_retirement total_non_deductible_paid).taxable < 0) := by
  refine ⟨rfl, rfl, by simp only [initialWallets]; ring, fun h => ?_⟩
  simp only [initialWallets]
  linarith

/-- Witness for C10 with a principal of seven against a balance of five. -/
theorem initial_wallet_split_witness :
    (5 : ℚ) < 7 ∧ (initialWallets 5 7).taxable < 0 :=
  ⟨by norm_num, (initial_wallet_split 5 7).2.2.2 (by norm_num)⟩

lemma bracketScan_at_base (lo : ℚ) (l : List (Option ℚ × ℚ × ℚ)) (h : BracketsWF lo l)
    (z : ℚ) (hz : z ≤ lo) : bracketScan z l = lineAt l z := by
  match l with
  | [] => exact h.elim
  | (none, rate, ded) :: rest => rfl
  | (some t, rate, ded) :: rest =>
    simp only [BracketsWF] at h
    obtain ⟨_, _, hlt, _, _⟩ := h
    simp only [bracketScan, lineAt]
    rw [if_pos (by linarith)]

lemma bracketScan_mono_lip (l : List (Option ℚ × ℚ × ℚ)) :
    ∀ lo : ℚ, BracketsWF lo l → ∀ x y : ℚ, x ≤ y →
      bracketScan x l ≤ bracketScan y l ∧ bracketScan x l - bracketScan y l ≤ 0 ∧
      bracketScan y l - bracketScan x l ≤ y - x := by
  induction l with
  | nil => intro lo h; exact h.elim
  | cons hd rest ih =>
    intro lo h x y hxy
    obtain ⟨topt, rate, ded⟩ := hd
    cases topt with
    | none =>
      cases rest with
      | nil =>
        simp only [BracketsWF] at h
        obtain ⟨hr0, hr1⟩ := h
        simp only [bracketScan]
        have h1 := mul_le_mul_of_nonneg_right hxy hr0
        have h2 := mul_le_mul_of_nonneg_right hr1 (sub_nonneg.mpr hxy)
        constructor
        · linarith
        constructor
        · linarith
        · nlinarith
      | cons hd2 rest2 =>
        simp only [BracketsWF] at h
    | some t =>
      simp only [BracketsWF] at h
      obtain ⟨hr0, hr1, hlo, hcont, hwf⟩ := h
      by_cases hy : y ≤ t
      · -- both at most t: first line on both sides
        have hx : x ≤ t := le_trans hxy hy
        simp only [bracketScan, if_pos hx, if_pos hy]
        have h1 := mul_le_mul_of_nonneg_right hxy hr0
        have h2 := mul_le_mul_of_nonneg_right hr1 (sub_nonneg.mpr hxy)
        refine ⟨by linarith, by linarith, by nlinarith⟩
      · by_cases hx : x ≤ t
        · -- x on the first line, y in the rest
          have hrest := ih t hwf t y (by linarith)
          have hbase : bracketScan t rest = lineAt rest t := bracketScan_at_base t rest hwf t le_rfl
          rw [hbase, hcont] at hrest
          simp only [bracketScan, if_pos hx, if_neg hy]
          have h1 := mul_le_mul_of_nonneg_right hx hr0
          have h2 := mul_le_mul_of_nonneg_right hr1 (sub_nonneg.mpr hx)
          refine ⟨by linarith, by linarith, by nlinarith⟩
        · -- both in the rest
          have hrest := ih t hwf x y hxy
          simp only [bracketScan, if_neg hx, if_neg hy]
          exact hrest

lemma comp_scan_wf : BracketsWF 0 COMPREHENSIVE_TAX_BRACKETS := by
  simp only [BracketsWF, COMPREHENSIVE_TAX_BRACKETS, lineAt]
  norm_num

lemma comp_scan_zero : bracketScan 0 COMPREHENSIVE_TAX_BRACKETS = 0 := by
  norm_num [bracketScan, COMPREHENSIVE_TAX_BRACKETS]

lemma comp_false_eq (x : ℚ) : get_comprehensive_tax x false =
    if x ≤ 0 then 0
    else if x ≤ 14000000 then x * (6/100) - 0
    else if x ≤ 50000000 then x * (15/100) - 1260000
    else if x ≤ 88000000 then x * (24/100) - 5760000
    else if x ≤ 150000000 then x * (35/100) - 15440000
    else if x ≤ 300000000 then x * (38/100) - 19940000
    else if x ≤ 500000000 then x * (40/100) - 25940000
    else if x ≤ 1000000000 then x * (42/100) - 35940000
    else x * (45/100) - 65940000 := rfl

lemma comp_nonpos (flag : Bool) (x : ℚ) (h : x ≤ 0) : get_comprehensive_tax x flag = 0 := by
  unfold get_comprehensive_tax
  rw [if_pos h]

lemma comp_surtax_eq (x : ℚ) :
    get_comprehensive_tax x true = (11/10) * get_comprehensive_tax x false := by
  by_cases h : x ≤ 0
  · simp [get_comprehensive_tax, h]
  · simp [get_comprehensive_tax, h, LOCAL_TAX_RATE]
    ring

lemma comp_false_mono (x y : ℚ) (h : x ≤ y) :
    get_comprehensive_tax x false ≤ get_comprehensive_tax y false := by
  by_cases hx : x ≤ 0
  · rw [comp_nonpos false x hx]
    by_cases hy : y ≤ 0
    · rw [comp_nonpos false y hy]
    · have h1 := (bracketScan_mono_lip COMPREHENSIVE_TAX_BRACKETS 0 comp_scan_wf 0 y
        (by linarith)).1
      rw [comp_scan_zero] at h1
      have : get_comprehensive_tax y false = bracketScan y COMPREHENSIVE_TAX_BRACKETS := by
        simp [get_comprehensive_tax, hy]
      linarith [this ▸ h1]
  · have hy : ¬ y ≤ 0 := by linarith
    have hxe : get_comprehensive_tax x false = bracketScan x COMPREHENSIVE_TAX_BRACKETS := by
      simp [get_comprehensive_tax, hx]
    have hye : get_comprehensive_tax y false = bracketScan y COMPREHENSIVE_TAX_BRACKETS := by
      simp [get_comprehensive_tax, hy]
    rw [hxe, hye]
    exact (bracketScan_mono_lip COMPREHENSIVE_TAX_BRACKETS 0 comp_scan_wf x y h).1

lemma comp_false_sub_le (x y : ℚ) (h : x ≤ y) :
    get_comprehensive_tax y false - get_comprehensive_tax x false ≤ y - x := by
  by_cases hx : x ≤ 0
  · rw [comp_nonpos false x hx]
    by_cases hy : y ≤ 0
    · rw [comp_nonpos false y hy]
      linarith
    · have h1 := (bracketScan_mono_lip COMPREHENSIVE_TAX_BRACKETS 0 comp_scan_wf 0 y
        (by linarith)).2.2
      rw [comp_scan_zero] at h1
      have hye : get_comprehensive_tax y false = bracketScan y COMPREHENSIVE_TAX_BRACKETS := by
        simp [get_comprehensive_tax, hy]
      rw [hye]
      linarith
  · have hy : ¬ y ≤ 0 := by linarith
    have hxe : get_comprehensive_tax x false = bracketScan x COMPREHENSIVE_TAX_BRACKETS := by
      simp [get_comprehensive_tax, hx]
    have hye : get_comprehensive_tax y false = bracketScan y COMPREHENSIVE_TAX_BRACKETS := by
      simp [get_comprehensive_tax, hy]
    rw [hxe, hye]
    exact (bracketScan_mono_lip COMPREHENSIVE_TAX_BRACKETS 0 comp_scan_wf x y h).2.2

lemma comp_false_lip (x y : ℚ) :
    |get_comprehensive_tax x false - get_comprehensive_tax y false| ≤ |x - y| := by
  rcases le_total x y with h | h
  · rw [abs_sub_comm, abs_of_nonneg (sub_nonneg.mpr (comp_false_mono x y h)),
      abs_sub_comm x y, abs_of_nonneg (sub_nonneg.mpr h)]
    exact comp_false_sub_le x y h
  · rw [abs_of_nonneg (sub_nonneg.mpr (comp_false_mono y x h)),
      abs_of_nonneg (sub_nonneg.mpr h)]
    exact comp_false_sub_le y x h

lemma comp_mono (flag : Bool) (x y : ℚ) (h : x ≤ y) :
    get_comprehensive_tax x flag ≤ get_comprehensive_tax y flag := by
  cases flag
  · exact comp_false_mono x y h
  · rw [comp_surtax_eq, comp_surtax_eq]
    have := comp_false_mono x y h
    linarith

lemma comp_lip2 (flag : Bool) (x y : ℚ) :
    |get_comprehensive_tax x flag - get_comprehensive_tax y flag| ≤ 2 * |x - y| := by
  cases flag
  · have h1 := comp_false_lip x y
    have h2 := abs_nonneg (x - y)
    linarith
  · rw [comp_surtax_eq, comp_surtax_eq, ← mul_sub, abs_mul]
    have h1 := comp_false_lip x y
    have h2 := abs_nonneg (x - y)
    have h3 : |(11/10 : ℚ)| = 11/10 := by norm_num
    rw [h3]
    linarith

lemma comp_contAt (flag : Bool) (b : ℚ) :
    ContinuousAtQ (fun x => get_comprehensive_tax x flag) b := by
  intro ε hε
  refine ⟨ε/2, by linarith, fun x hx => ?_⟩
  have h1 := comp_lip2 flag x b
  simp only []
  linarith

lemma comp_region1 (x : ℚ) (h0 : 0 < x) (h1 : x ≤ 14000000) :
    get_comprehensive_tax x false = x * (6/100) - 0 := by
  rw [comp_false_eq, if_neg (by linarith), if_pos h1]

lemma comp_region2 (x : ℚ) (h0 : 14000000 < x) (h1 : x ≤ 50000000) :
    get_comprehensive_tax x false = x * (15/100) - 1260000 := by
  rw [comp_false_eq, if_neg (by linarith), if_neg (by linarith), if_pos h1]

lemma comp_region3 (x : ℚ) (h0 : 50000000 < x) (h1 : x ≤ 88000000) :
    get_comprehensive_tax x false = x * (24/100) - 5760000 := by
  rw [comp_false_eq, if_neg (by linarith), if_neg (by linarith), if_neg (by linarith), if_pos h1]

lemma comp_region4 (x : ℚ) (h0 : 88000000 < x) (h1 : x ≤ 150000000) :
    get_comprehensive_tax x false = x * (35/100) - 15440000 := by
  rw [comp_false_eq, if_neg (by linarith), if_neg (by linarith), if_neg (by linarith),
    if_neg (by linarith), if_pos h1]

lemma comp_region5 (x : ℚ) (h0 : 150000000 < x) (h1 : x ≤ 300000000) :
    get_comprehensive_tax x false = x * (38/100) - 19940000 := by
  rw [comp_false_eq, if_neg (by linarith), if_neg (by linarith), if_neg (by linarith),
    if_neg (by linarith), if_neg (by linarith), if_pos h1]

lemma comp_region6 (x : ℚ) (h0 : 300000000 < x) (h1 : x ≤ 500000000) :
    get_comprehensive_tax x false = x * (40/100) - 25940000 := by
  rw [comp_false_eq, if_neg (by linarith), if_neg (by linarith), if_neg (by linarith),
    if_neg (by linarith), if_neg (by linarith), if_neg (by linarith), if_pos h1]

lemma comp_region7 (x : ℚ) (h0 : 500000000 < x) (h1 : x ≤ 1000000000) :
    get_comprehensive_tax x false = x * (42/100) - 35940000 := by
  rw [comp_false_eq, if_neg (by linarith), if_neg (by linarith), if_neg (by linarith),
    if_neg (by linarith), if_neg (by linarith), if_neg (by linarith), if_neg (by linarith),
    if_pos h1]

lemma comp_region8 (x : ℚ) (h0 : 1000000000 < x) :
    get_comprehensive_tax x false = x * (45/100) - 65940000 := by
  rw [comp_false_eq, if_neg (by linarith), if_neg (by linarith), if_neg (by linarith),
    if_neg (by linarith), if_neg (by linarith), if_neg (by linarith), if_neg (by linarith),
    if_neg (by linarith)]

/-- C7: get_comprehensive_tax is zero on non positive income, applies the
lowest bracket whose inclusive upper threshold covers a positive income
as income times rate minus cumulative deduction, is non decreasing,
continuous at every bracket threshold, and the surtax variant is exactly
one point one times the base variant. -/
theorem comprehensive_tax_properties :
    (∀ flag : Bool, ∀ x : ℚ, x ≤ 0 → get_comprehensive_tax x flag = 0) ∧
    (∀ x : ℚ, 0 < x → x ≤ 14000000 → get_comprehensive_tax x false = x * (6/100) - 0) ∧
    (∀ x : ℚ, 14000000 < x → x ≤ 50000000 →
      get_comprehensive_tax x false = x * (15/100) - 1260000) ∧
    (∀ x : ℚ, 50000000 < x → x ≤ 88000000 →
      get_comprehensive_tax x false = x * (24/100) - 5760000) ∧
    (∀ x : ℚ, 88000000 < x → x ≤ 150000000 →
      get_comprehensive_tax x false = x * (35/100) - 15440000) ∧
    (∀ x : ℚ, 150000000 < x → x ≤ 300000000 →
      get_comprehensive_tax x false = x * (38/100) - 19940000) ∧
    (∀ x : ℚ, 300000000 < x → x ≤ 500000000 →
      get_comprehensive_tax x false = x * (40/100) - 25940000) ∧
    (∀ x : ℚ, 500000000 < x → x ≤ 1000000000 →
      get_comprehensive_tax x false = x * (42/100) - 35940000) ∧
    (∀ x : ℚ, 1000000000 < x → get_comprehensive_tax x false = x * (45/100) - 65940000) ∧
    (∀ flag : Bool, ∀ x y : ℚ, x ≤ y →
      get_comprehensive_tax x flag ≤ get_comprehensive_tax y flag) ∧
    (∀ flag : Bool, ∀ b : ℚ,
      b ∈ ([14000000, 50000000, 88000000, 150000000, 300000000, 500000000,
        1000000000] : List ℚ) →
      ContinuousAtQ (fun x => get_comprehensive_tax x flag) b) ∧
    (∀ x : ℚ, get_comprehensive_tax x true = (11/10) * get_comprehensive_tax x false) :=
  ⟨comp_nonpos, comp_region1, comp_region2, comp_region3, comp_region4, comp_region5,
    comp_region6, comp_region7, comp_region8, comp_mono,
    fun flag b _ => comp_contAt flag b, comp_surtax_eq⟩

/-- Witness for C7 in the second bracket at thirty million. -/
theorem comprehensive_tax_properties_witness :
    ((14000000 : ℚ) < 30000000 ∧ (30000000 : ℚ) ≤ 50000000 ∧
      get_comprehensive_tax 30000000 false = 30000000 * (15/100) - 1260000) ∧
    ((0 : ℚ) ≤ 1 ∧ get_comprehensive_tax 0 false ≤ get_comprehensive_tax 1 false) :=
  ⟨⟨by norm_num, by norm_num,
      comprehensive_tax_properties.2.2.1 30000000 (by norm_num) (by norm_num)⟩,
    ⟨by norm_num, comprehensive_tax_properties.2.2.2.2.2.2.2.2.2.1 false 0 1 (by norm_num)⟩⟩

lemma payoutLoopAux_zero (u : UserInput) (py off : ℤ) (w : WalletState) :
    payoutLoopAux u py 0 off w = ([], w) := rfl

lemma payoutLoopAux_succ (u : UserInput) (py : ℤ) (fuel : ℕ) (off : ℤ) (w : WalletState) :
    payoutLoopAux u py (fuel + 1) off w =
      if currentBalance w ≤ 0 then ([], w)
      else
        ((payoutStep u py off w) ::
            (payoutLoopAux u py fuel (off + 1) (payoutStep u py off w).2).1,
          (payoutLoopAux u py fuel (off + 1) (payoutStep u py off w).2).2) := rfl

lemma payoutStep_payout (u : UserInput) (py off : ℤ) (w : WalletState) :
    (payoutStep u py off w).1.annual_payout =
      min (annualPayoutTarget (u.post_retirement_return / 100) (currentBalance w) (py - off))
        (currentBalance w) := rfl

lemma payoutStep_balance (u : UserInput) (py off : ℤ) (w : WalletState) :
    currentBalance (payoutStep u py off w).2 =
      (currentBalance w - (payoutStep u py off w).1.annual_payout) *
        (1 + u.post_retirement_return / 100) := by
  have hnt : (payoutStep u py off w).2.non_taxable =
      (w.non_taxable - min ((payoutStep u py off w).1.annual_payout) w.non_taxable) *
        (1 + u.post_retirement_return / 100) := rfl
  have ht : (payoutStep u py off w).2.taxable =
      (w.taxable - ((payoutStep u py off w).1.annual_payout -
        min ((payoutStep u py off w).1.annual_payout) w.non_taxable)) *
        (1 + u.post_retirement_return / 100) := rfl
  have hb : currentBalance w = w.non_taxable + w.taxable := rfl
  rw [currentBalance, hnt, ht, hb]
  ring

lemma annualPayoutTarget_nonneg (rate bal : ℚ) (m : ℤ) (hb : 0 ≤ bal) :
    0 ≤ annualPayoutTarget rate bal m := by
  simp only [annualPayoutTarget]
  split_ifs with hm h0 hneg hf
  · exact le_refl 0
  · have hmq : (0:ℚ) < (m : ℚ) := by exact_mod_cast (by omega : (0:ℤ) < m)
    exact div_nonneg hb hmq.le
  · exact hb
  · exact div_nonneg hb (le_of_lt hf)
  · exact le_refl 0

lemma payoutStep_zero_rate (u : UserInput) (hr : u.post_retirement_return = 0)
    (py off : ℤ) (w : WalletState) (hrem : 1 ≤ py - off) (hbal : 0 < currentBalance w) :
    (payoutStep u py off w).1.annual_payout = currentBalance w / ((py - off : ℤ) : ℚ) ∧
    currentBalance (payoutStep u py off w).2 =
      currentBalance w - currentBalance w / ((py - off : ℤ) : ℚ) := by
  have htgt : annualPayoutTarget (u.post_retirement_return / 100) (currentBalance w) (py - off) =
      currentBalance w / ((py - off : ℤ) : ℚ) := by
    simp only [annualPayoutTarget]
    rw [if_neg (by omega), if_pos (by rw [hr]; norm_num)]
  have hcast : (1:ℚ) ≤ ((py - off : ℤ) : ℚ) := by exact_mod_cast hrem
  have hle : currentBalance w / ((py - off : ℤ) : ℚ) ≤ currentBalance w :=
    div_le_self hbal.le hcast
  have hap : (payoutStep u py off w).1.annual_payout =
      currentBalance w / ((py - off : ℤ) : ℚ) := by
    rw [payoutStep_payout, htgt, min_eq_left hle]
  refine ⟨hap, ?_⟩
  rw [payoutStep_balance, hap, hr]
  ring

lemma zero_rate_loop (u : UserInput) (hr : u.post_retirement_return = 0) (py : ℤ) (q : ℚ)
    (hq : 0 ≤ q) :
    ∀ fuel : ℕ, ∀ off : ℤ, ∀ w : WalletState,
      py - off = (fuel : ℤ) → currentBalance w = q * (fuel : ℚ) →
      (∀ e ∈ (payoutLoopAux u py fuel off w).1, e.1.annual_payout = q) ∧
      currentBalance (payoutLoopAux u py fuel off w).2 = 0 := by
  intro fuel
  induction fuel with
  | zero =>
    intro off w h1 h2
    rw [payoutLoopAux_zero]
    constructor
    · intro e he
      simp at he
    · simpa using h2
  | succ n ih =>
    intro off w h1 h2
    rcases eq_or_lt_of_le hq with hq0 | hqpos
    · have hbal : currentBalance w ≤ 0 := by
        rw [h2, ← hq0]
        norm_num
      rw [payoutLoopAux_succ, if_pos hbal]
      constructor
      · intro e he
        simp at he
      · show currentBalance w = 0
        rw [h2, ← hq0]
        ring
    · have hbal : 0 < currentBalance w := by
        rw [h2]
        have hn : (0:ℚ) < ((n + 1 : ℕ) : ℚ) := by positivity
        exact mul_pos hqpos hn
      rw [payoutLoopAux_succ, if_neg (not_le.mpr hbal)]
      have hrem : py - off = ((n : ℤ) + 1) := by exact_mod_cast h1
      have hstep := payoutStep_zero_rate u hr py off w (by omega) hbal
      have hdiv : currentBalance w / ((py - off : ℤ) : ℚ) = q := by
        rw [h2, hrem]
        push_cast
        rw [mul_div_assoc, div_self (by positivity : ((n:ℚ) + 1) ≠ 0), mul_one]
      have hnext : currentBalance (payoutStep u py off w).2 = q * (n : ℚ) := by
        rw [hstep.2, hdiv, h2]
        push_cast
        ring
      have hih := ih (off + 1) (payoutStep u py off w).2 (by omega) hnext
      constructor
      · intro e he
        simp only [List.mem_cons] at he
        rcases he with rfl | hmem
        · rw [hstep.1, hdiv]
        · exact hih.1 e hmem
      · exact hih.2

/-- C5: with a zero post retirement return and a non negative starting
balance B over n payout years, every simulated year withdraws exactly B
over n gross, and the total balance after the loop is exactly zero. -/
theorem zero_rate_annuity (u : UserInput) (B paid : ℚ)
    (hr : u.post_retirement_return = 0) (hn : 1 ≤ payoutYears u) (hB : 0 ≤ B) :
    (∀ e ∈ payoutTrace u B paid, e.1.annual_payout = B / ((payoutYears u : ℤ) : ℚ)) ∧
    currentBalance (finalWallets u B paid) = 0 := by
  have hpy : (0:ℤ) < payoutYears u := by omega
  have hq : 0 ≤ B / ((payoutYears u : ℤ) : ℚ) := by
    apply div_nonneg hB
    exact_mod_cast hpy.le
  have h1 : ((payoutYears u).toNat : ℤ) = payoutYears u := Int.toNat_of_nonneg hpy.le
  have hcast : (((payoutYears u).toNat : ℕ) : ℚ) = ((payoutYears u : ℤ) : ℚ) := by
    exact_mod_cast h1
  have hne : ((payoutYears u : ℤ) : ℚ) ≠ 0 := by
    have : (0:ℚ) < ((payoutYears u : ℤ) : ℚ) := by exact_mod_cast hpy
    exact this.ne'
  have hinit : currentBalance (initialWallets B paid) =
      (B / ((payoutYears u : ℤ) : ℚ)) * (((payoutYears u).toNat : ℕ) : ℚ) := by
    have hcb : currentBalance (initialWallets B paid) = paid + (B - paid) := rfl
    rw [hcb, hcast, div_mul_cancel₀ B hne]
    ring
  have h := zero_rate_loop u hr (payoutYears u) (B / ((payoutYears u : ℤ) : ℚ)) hq
      (payoutYears u).toNat 0 (initialWallets B paid) (by omega) hinit
  exact ⟨fun e he => h.1 e he, h.2⟩

/-- Witness for C5 on a concrete zero rate run over ten years. -/
theorem zero_rate_annuity_witness :
    currentBalance (finalWallets uZeroRate 12 3) = 0 :=
  (zero_rate_annuity uZeroRate 12 3 rfl (by decide) (by norm_num)).2

lemma payoutStep_wallets_nonneg (u : UserInput) (py off : ℤ) (w : WalletState)
    (hr : -100 ≤ u.post_retirement_return) (_h1 : 0 ≤ w.non_taxable) (h2 : 0 ≤ w.taxable) :
    0 ≤ (payoutStep u py off w).2.non_taxable ∧ 0 ≤ (payoutStep u py off w).2.taxable := by
  have hrate : (0:ℚ) ≤ 1 + u.post_retirement_return / 100 := by linarith
  have hnt : (payoutStep u py off w).2.non_taxable =
      (w.non_taxable - min ((payoutStep u py off w).1.annual_payout) w.non_taxable) *
        (1 + u.post_retirement_return / 100) := rfl
  have ht : (payoutStep u py off w).2.taxable =
      (w.taxable - ((payoutStep u py off w).1.annual_payout -
        min ((payoutStep u py off w).1.annual_payout) w.non_taxable)) *
        (1 + u.post_retirement_return / 100) := rfl
  have hb : currentBalance w = w.non_taxable + w.taxable := rfl
  have hap_le : (payoutStep u py off w).1.annual_payout ≤ currentBalance w := by
    rw [payoutStep_payout]
    exact min_le_right _ _
  constructor
  · rw [hnt]
    apply mul_nonneg _ hrate
    have := min_le_right ((payoutStep u py off w).1.annual_payout) w.non_taxable
    linarith
  · rw [ht]
    apply mul_nonneg _ hrate
    rcases min_cases ((payoutStep u py off w).1.annual_payout) w.non_taxable with
      ⟨hm, hle⟩ | ⟨hm, hlt⟩
    · rw [hm]
      linarith
    · rw [hm]
      rw [hb] at hap_le
      linarith

lemma wallets_nonneg_loop (u : UserInput) (hr : -100 ≤ u.post_retirement_return) (py : ℤ) :
    ∀ fuel : ℕ, ∀ off : ℤ, ∀ w : WalletState, 0 ≤ w.non_taxable → 0 ≤ w.taxable →
      ∀ e ∈ (payoutLoopAux u py fuel off w).1, 0 ≤ e.2.non_taxable ∧ 0 ≤ e.2.taxable := by
  intro fuel
  induction fuel with
  | zero =>
    intro off w _h1 _h2 e he
    rw [payoutLoopAux_zero] at he
    simp at he
  | succ n ih =>
    intro off w h1 h2 e he
    rw [payoutLoopAux_succ] at he
    by_cases hbal : currentBalance w ≤ 0
    · rw [if_pos hbal] at he
      simp at he
    · rw [if_neg hbal] at he
      simp only [List.mem_cons] at he
      rcases he with rfl | hmem
      · exact payoutStep_wallets_nonneg u py off w hr h1 h2
      · have hs := payoutStep_wallets_nonneg u py off w hr h1 h2
        exact ih (off + 1) (payoutStep u py off w).2 hs.1 hs.2 e hmem

/-- C3 amended: wallet non negativity holds for every run whose post
retirement return is at least minus one hundred percent and whose non
deductible principal is non negative and not larger than the terminal
balance; the claim as stated fails when the principal exceeds the
terminal balance. -/
theorem wallet_nonneg_amended (u : UserInput) (B paid : ℚ)
    (hr : -100 ≤ u.post_retirement_return) (h0 : 0 ≤ paid) (h1 : paid ≤ B) :
    ∀ e ∈ payoutTrace u B paid, 0 ≤ e.2.non_taxable ∧ 0 ≤ e.2.taxable := by
  have htx : 0 ≤ (initialWallets B paid).taxable := by
    show (0:ℚ) ≤ B - paid
    linarith
  exact wallets_nonneg_loop u hr (payoutYears u) (payoutYears u).toNat 0
    (initialWallets B paid) h0 htx

lemma payoutTrace_head (u : UserInput) (B paid : ℚ) (h1 : 1 ≤ payoutYears u) (h2 : 0 < B) :
    payoutTrace u B paid =
      payoutStep u (payoutYears u) 0 (initialWallets B paid) ::
        (payoutLoopAux u (payoutYears u) ((payoutYears u).toNat - 1) 1
          (payoutStep u (payoutYears u) 0 (initialWallets B paid)).2).1 := by
  unfold payoutTrace
  obtain ⟨m, hm⟩ : ∃ m, (payoutYears u).toNat = m + 1 := ⟨(payoutYears u).toNat - 1, by omega⟩
  have hm2 : (payoutYears u).toNat - 1 = m := by omega
  have hguard : ¬ currentBalance (initialWallets B paid) ≤ 0 := by
    have hcb : currentBalance (initialWallets B paid) = paid + (B - paid) := rfl
    rw [hcb]
    linarith
  rw [hm2, hm, payoutLoopAux_succ, if_neg hguard]
  norm_num

/-- Witness for C3 amended: the wallet state after the first simulated
year of a concrete valid run is componentwise non negative. -/
theorem wallet_nonneg_amended_witness :
    0 ≤ (payoutStep uZeroRate (payoutYears uZeroRate) 0 (initialWallets 10 0)).2.non_taxable ∧
    0 ≤ (payoutStep uZeroRate (payoutYears uZeroRate) 0 (initialWallets 10 0)).2.taxable := by
  refine wallet_nonneg_amended uZeroRate 10 0 (by norm_num [uZeroRate]) le_rfl (by norm_num)
    _ ?_
  rw [payoutTrace_head uZeroRate 10 0 (by decide) (by norm_num)]
  exact List.mem_cons_self _ _

lemma accumulateBalance_zero_rate (c : ℚ) (n : ℕ) :
    accumulateBalance 0 c ContributionTiming.endOfYear n = n * c := by
  induction n with
  | zero => simp [accumulateBalance]
  | succ m ih =>
    simp only [accumulateBalance, ih]
    push_cast
    ring

/-- C3 counterexample: a parameter set that passes the validation of the
main app logic, whose non deductible principal exceeds the terminal
balance, leaves the taxable wallet negative after the first simulated
year. -/
theorem wallet_nonneg_counterexample :
    validParams uNegWallet ∧
    calculate_total_at_retirement uNegWallet = 180000000 ∧
    totalNonDeductiblePaid uNegWallet = 1000000000 ∧
    ((payoutTrace uNegWallet 180000000 1000000000).head?.map fun e => e.2.taxable) =
      some (-820000000) ∧
    (-820000000 : ℚ) < 0 := by
  refine ⟨by decide, ?_, ?_, ?_, by norm_num⟩
  · show accumulateBalance (uNegWallet.pre_retirement_return / 100) uNegWallet.annual_contribution
      uNegWallet.contribution_timing (contributionYears uNegWallet).toNat = 180000000
    have h1 : uNegWallet.pre_retirement_return / 100 = 0 := by norm_num [uNegWallet]
    have h2 : (contributionYears uNegWallet).toNat = 30 := rfl
    rw [h1, h2]
    show accumulateBalance 0 uNegWallet.annual_contribution ContributionTiming.endOfYear 30
      = 180000000
    rw [accumulateBalance_zero_rate]
    norm_num [uNegWallet]
  · norm_num [totalNonDeductiblePaid, contributionYears, uNegWallet]
  · rw [payoutTrace_head uNegWallet 180000000 1000000000 (by decide) (by norm_num)]
    simp only [List.head?_cons, Option.map_some']
    congr 1
    have ht : (payoutStep uNegWallet (payoutYears uNegWallet) 0
        (initialWallets 180000000 1000000000)).2.taxable =
        ((initialWallets 180000000 1000000000).taxable -
          ((payoutStep uNegWallet (payoutYears uNegWallet) 0
              (initialWallets 180000000 1000000000)).1.annual_payout -
            min ((payoutStep uNegWallet (payoutYears uNegWallet) 0
                (initialWallets 180000000 1000000000)).1.annual_payout)
              (initialWallets 180000000 1000000000).non_taxable)) *
          (1 + uNegWallet.post_retirement_return / 100) := rfl
    have hap : (payoutStep uNegWallet (payoutYears uNegWallet) 0
        (initialWallets 180000000 1000000000)).1.annual_payout = 6000000 := by
      rw [payoutStep_payout]
      have hcb : currentBalance (initialWallets 180000000 1000000000) = 180000000 := by
        norm_num [currentBalance, initialWallets]
      rw [hcb]
      have htg : annualPayoutTarget (uNegWallet.post_retirement_return / 100) 180000000
          (payoutYears uNegWallet - 0) = 6000000 := by
        have hr : uNegWallet.post_retirement_return / 100 = 0 := by norm_num [uNegWallet]
        have hpy : payoutYears uNegWallet - 0 = 30 := rfl
        rw [hr, hpy]
        norm_num [annualPayoutTarget]
      rw [htg]
      norm_num
    rw [ht, hap]
    norm_num [initialWallets, uNegWallet, min_def]

lemma recognizedAndExcess_facts (bal ft : ℚ) (k : ℤ) (hk : 1 ≤ k) (hft : 0 ≤ ft)
    (hb : 0 ≤ bal) :
    0 ≤ (recognizedAndExcess bal ft k).1 ∧ (recognizedAndExcess bal ft k).1 ≤ ft ∧
    (recognizedAndExcess bal ft k).2 = ft - (recognizedAndExcess bal ft k).1 := by
  simp only [recognizedAndExcess]
  split_ifs with h10 hover
  · have hden : (0:ℚ) < ((11 - k : ℤ) : ℚ) := by
      exact_mod_cast (by omega : (0:ℤ) < 11 - k)
    have hlim : 0 ≤ bal * (12/10) / ((11 - k : ℤ) : ℚ) :=
      div_nonneg (by linarith) hden.le
    exact ⟨hlim, le_of_lt hover, by ring⟩
  · exact ⟨hft, le_refl ft, by ring⟩
  · exact ⟨hft, le_refl ft, by ring⟩

lemma pension_tax_le (gross : ℚ) (u : UserInput) (age : ℤ) (h : 0 < gross) :
    (calculate_annual_pension_tax gross u age).chosen ≤ gross * (165/1000) := by
  simp only [calculate_annual_pension_tax, PENSION_TAX_RATE_UNDER_70, PENSION_TAX_RATE_UNDER_80,
    PENSION_TAX_RATE_OVER_80, separateCandidate, SEPARATE_TAX_RATE]
  split_ifs <;> dsimp only <;> linarith

lemma tax_bound_core (u : UserInput) (age k : ℤ) (bal ft : ℚ) (hk : 1 ≤ k) (hft : 0 ≤ ft)
    (hb : 0 ≤ bal) :
    (if 0 < (recognizedAndExcess bal ft k).1 then
        calculate_annual_pension_tax (recognizedAndExcess bal ft k).1 u age
      else ⟨0, 0, 0, TaxChoice.notApplicable⟩).chosen +
      (recognizedAndExcess bal ft k).2 * OTHER_INCOME_TAX_RATE ≤ (165/1000) * ft := by
  obtain ⟨hr0, hrle, hre⟩ := recognizedAndExcess_facts bal ft k hk hft hb
  rw [hre]
  unfold OTHER_INCOME_TAX_RATE
  split_ifs with hpos
  · have hb1 := pension_tax_le (recognizedAndExcess bal ft k).1 u age hpos
    linarith
  · have hz : (recognizedAndExcess bal ft k).1 = 0 := le_antisymm (not_lt.mp hpos) hr0
    show (0:ℚ) + (ft - (recognizedAndExcess bal ft k).1) * (165/1000) ≤ (165/1000) * ft
    rw [hz]
    linarith

/-- C9: in every simulated payout year starting from non negative wallet
balances with a positive total, the total tax charged is at most sixteen
point five percent of the taxable sourced portion of the withdrawal, so
the after tax payout is at least eighty three point five percent of the
gross withdrawal and is never negative. -/
theorem per_year_tax_bound (u : UserInput) (py off : ℤ) (w : WalletState)
    (hoff : 0 ≤ off) (h1 : 0 ≤ w.non_taxable) (_h2 : 0 ≤ w.taxable)
    (h3 : 0 < currentBalance w) :
    (payoutStep u py off w).1.total_tax_paid ≤
      (165/1000) * ((payoutStep u py off w).1.annual_payout -
        min ((payoutStep u py off w).1.annual_payout) w.non_taxable) ∧
    (835/1000) * (payoutStep u py off w).1.annual_payout ≤
      (payoutStep u py off w).1.annual_take_home ∧
    0 ≤ (payoutStep u py off w).1.annual_take_home := by
  have hap0 : 0 ≤ (payoutStep u py off w).1.annual_payout := by
    rw [payoutStep_payout]
    exact le_min (annualPayoutTarget_nonneg _ _ _ h3.le) h3.le
  have hft0 : 0 ≤ (payoutStep u py off w).1.annual_payout -
      min ((payoutStep u py off w).1.annual_payout) w.non_taxable := by
    have := min_le_left ((payoutStep u py off w).1.annual_payout) w.non_taxable
    linarith
  have hftle : (payoutStep u py off w).1.annual_payout -
      min ((payoutStep u py off w).1.annual_payout) w.non_taxable ≤
      (payoutStep u py off w).1.annual_payout := by
    have := le_min hap0 h1
    linarith
  have hcore : (payoutStep u py off w).1.total_tax_paid ≤
      (165/1000) * ((payoutStep u py off w).1.annual_payout -
        min ((payoutStep u py off w).1.annual_payout) w.non_taxable) :=
    tax_bound_core u (u.retirement_age + off) (off + 1) (currentBalance w)
      ((payoutStep u py off w).1.annual_payout -
        min ((payoutStep u py off w).1.annual_payout) w.non_taxable)
      (by omega) hft0 h3.le
  have hth : (payoutStep u py off w).1.annual_take_home =
      (payoutStep u py off w).1.annual_payout - (payoutStep u py off w).1.total_tax_paid := rfl
  refine ⟨hcore, ?_, ?_⟩
  · rw [hth]
    linarith
  · rw [hth]
    linarith

/-- Witness for C9 on a concrete positive balance year. -/
theorem per_year_tax_bound_witness :
    (payoutStep uZeroRate 10 0 ⟨3, 7⟩).1.total_tax_paid ≤
      (165/1000) * ((payoutStep uZeroRate 10 0 ⟨3, 7⟩).1.annual_payout -
        min ((payoutStep uZeroRate 10 0 ⟨3, 7⟩).1.annual_payout)
          (WalletState.non_taxable ⟨3, 7⟩)) ∧
    (835/1000) * (payoutStep uZeroRate 10 0 ⟨3, 7⟩).1.annual_payout ≤
      (payoutStep uZeroRate 10 0 ⟨3, 7⟩).1.annual_take_home ∧
    0 ≤ (payoutStep uZeroRate 10 0 ⟨3, 7⟩).1.annual_take_home :=
  per_year_tax_bound uZeroRate 10 0 ⟨3, 7⟩ le_rfl (by norm_num) (by norm_num)
    (by norm_num [currentBalance])
